import Mathlib

/-!
Dashboard cache services: shallow embedding.

This file embeds the two client-side cache services of the repository:

* the dashboard statistics service (`dashboard_statistics_service`,
  registered as `ptt_dashboard_statistics`): a reactive `statistics`
  object (`overview`, `reps`, `loading`), two promise handles
  (`overviewPromise`, `repPromises`), two loaders `loadStatistics` and
  `loadRepStatistics` both wrapped in the framework `memoize` decorator,
  and an `invalidateCache` function;

* the home service (`homeService`, registered as `ptt_home`): a reactive
  `state` object (`homeData`, `salesData`, `calendarData`, `lastFetch`,
  `loading`), `getHomeSummary` with a 60000 ms cache window, the personal
  todo mutations (`createPersonalTodo`, `togglePersonalTodo`,
  `deletePersonalTodo`) and its own `invalidateCache`.

Execution is single-threaded and cooperative: each async operation is
modelled as a synchronous *call* step that either returns a settled
result or registers a new in-flight backend call (a *flight*), plus a
*settle* step that runs the continuation behind the `await` when the
backend call resolves or rejects.  A flight is one execution of the body
behind the await, i.e. one Fetcher invocation in the sense of the
specification (the widget-creation fallback inside the overview load is
internal to a single flight).  `nextFlight` counts Fetcher invocations.

Aggregate payloads are opaque to the cache; we model them as `Nat`, and
errors as `Nat`.  Cache keys passed to `loadRepStatistics` are JavaScript
values: the embedding keeps both the `Map` key semantics (SameValueZero,
reference identity for objects) used by `memoize` and `repPromises`, and
the property-key string coercion used by the plain object
`statistics.reps` (any object coerces to the string "[object Object]").
-/

namespace PttCache

/-- A JavaScript value used as a cache key: either a number, or an object
carrying its reference identity and its own enumerable fields (field
values limited to string-or-null, as in the filter objects of the
specification). -/
inductive JsVal where
  | num : Nat → JsVal
  | obj : Nat → List (String × Option String) → JsVal
deriving DecidableEq, Repr

/-- JavaScript property-key coercion, as performed by
`statistics.reps[repId]`: numbers print as decimal strings, and every
plain object coerces to "[object Object]". -/
def propertyKey : JsVal → String
  | JsVal.num n => toString n
  | JsVal.obj _ _ => "\x7bobject Object\x7d"

/-- SameValueZero equality, as used by `Map.has` / `Map.get` /
`Map.delete` in `memoize` and `repPromises`: numbers compare by value,
objects by reference identity. -/
def sameValueZero : JsVal → JsVal → Bool
  | JsVal.num n, JsVal.num m => n == m
  | JsVal.obj i _, JsVal.obj j _ => i == j
  | _, _ => false

/-- String key equality (plain-object property table). -/
def strEq (a b : String) : Bool := a == b

/-- Nat key equality (flight table). -/
def natEq (a b : Nat) : Bool := a == b

/-- Association-list lookup under an explicit key equality. -/
def alookup {κ α : Type} (eq : κ → κ → Bool) : List (κ × α) → κ → Option α
  | [], _ => none
  | (k, a) :: t, k0 => if eq k k0 then some a else alookup eq t k0

/-- Remove every binding for a key (JS `Map.delete` / key overwrite;
keys are unique in all states we build, so this is exactly `delete`). -/
def aremove {κ α : Type} (eq : κ → κ → Bool) (l : List (κ × α)) (k : κ) :
    List (κ × α) :=
  l.filter (fun p => !(eq p.1 k))

/-- Insert or overwrite a binding (JS `Map.set` / property assignment). -/
def ainsert {κ α : Type} (eq : κ → κ → Bool) (l : List (κ × α)) (k : κ)
    (v : α) : List (κ × α) :=
  aremove eq l k ++ [(k, v)]

/-- What a returned promise settles to: either an already-determined
value, or the outcome of backend flight `f`. -/
inductive PResult where
  | value : Nat → PResult
  | flight : Nat → PResult
deriving DecidableEq, Repr

instance : DecidableEq (Except Nat Nat) := fun a b =>
  match a, b with
  | Except.ok x, Except.ok y =>
    if h : x = y then isTrue (by rw [h]) else isFalse (by simp [h])
  | Except.ok _, Except.error _ => isFalse (by simp)
  | Except.error _, Except.ok _ => isFalse (by simp)
  | Except.error x, Except.error y =>
    if h : x = y then isTrue (by rw [h]) else isFalse (by simp [h])

/-- Status of a backend flight: still in flight, or settled with an
outcome (`Except.ok` = resolved, `Except.error` = rejected). -/
inductive FlightState where
  | pending : FlightState
  | done : Except Nat Nat → FlightState
deriving DecidableEq, Repr

namespace Stats

/-- Which continuation a statistics-service flight runs when it settles:
the overview load or the per-rep load for key `repId`. -/
inductive FlightKind where
  | overview : FlightKind
  | rep : JsVal → FlightKind
deriving DecidableEq, Repr

/-- One backend flight of the statistics service. -/
structure Flight where
  kind : FlightKind
  st : FlightState
deriving DecidableEq, Repr

/-- Whole state of `dashboard_statistics_service.start`:
the reactive `statistics` object (`overview`, `reps`, `loading`), the
promise handles `overviewPromise` and `repPromises`, the two `memoize`
caches, and the flight table (`nextFlight` = number of Fetcher
invocations so far). -/
structure State where
  overview : Option Nat
  reps : List (String × Nat)
  loading : Bool
  overviewPromise : Option Nat
  repPromises : List (JsVal × Nat)
  memoStats : Option PResult
  memoReps : List (JsVal × PResult)
  nextFlight : Nat
  flights : List (Nat × Flight)
deriving DecidableEq, Repr

/-- Service state right after `start`. -/
def init : State :=
  { overview := none, reps := [], loading := false, overviewPromise := none,
    repPromises := [], memoStats := none, memoReps := [], nextFlight := 0,
    flights := [] }

/-- Modelled from the spec: the `memoize` decorator imported from
`@web/core/utils/functions` belongs to the vendored web framework and is
not among the provided source files; per the source doc comments
("caches the promise" / "caches the promise per repId") and the
specification (memoization as per-key pending-promise storage), it
caches the promise returned by the wrapped function per first argument
(`Map` keyed by SameValueZero) and never evicts.  `loadStatistics` takes
no argument, so its memo cache is a single slot (`memoStats`); this
predicate is the `cache.has` test for that slot. -/
def memoStatsHit (s : State) : Option PResult := s.memoStats

/-- The function `loadStatistics()`: the memoized overview loader.  On a memo miss the
inner async body runs: return `statistics.overview` if non-null, else
return the in-flight `overviewPromise` if present, else set
`statistics.loading`, start a fresh backend flight and store its promise
in `overviewPromise`.  The promise the wrapper returns is recorded in the
memo slot. -/
def loadStatistics (s : State) : State × PResult :=
  match memoStatsHit s with
  | some p => (s, p)
  | none =>
    match s.overview with
    | some v =>
        ({ s with memoStats := some (PResult.value v) }, PResult.value v)
    | none =>
      match s.overviewPromise with
      | some f =>
          ({ s with memoStats := some (PResult.flight f) }, PResult.flight f)
      | none =>
        let f := s.nextFlight
        ({ s with loading := true,
                  overviewPromise := some f,
                  memoStats := some (PResult.flight f),
                  nextFlight := f + 1,
                  flights :=
                    s.flights ++ [(f, ⟨FlightKind.overview, FlightState.pending⟩)] },
         PResult.flight f)

/-- The function `loadRepStatistics(repId)`: the memoized per-rep loader.  Memo cache
and `repPromises` are `Map`s keyed by SameValueZero on `repId`; the
truthiness test `if (statistics.reps[repId])` reads the plain `reps`
object under the coerced property key (stored payloads are objects,
hence always truthy when present). -/
def loadRepStatistics (repId : JsVal) (s : State) : State × PResult :=
  match alookup sameValueZero s.memoReps repId with
  | some p => (s, p)
  | none =>
    match alookup strEq s.reps (propertyKey repId) with
    | some v =>
        ({ s with memoReps :=
            ainsert sameValueZero s.memoReps repId (PResult.value v) },
         PResult.value v)
    | none =>
      match alookup sameValueZero s.repPromises repId with
      | some f =>
          ({ s with memoReps :=
              ainsert sameValueZero s.memoReps repId (PResult.flight f) },
           PResult.flight f)
      | none =>
        let f := s.nextFlight
        ({ s with repPromises := ainsert sameValueZero s.repPromises repId f,
                  memoReps :=
                    ainsert sameValueZero s.memoReps repId (PResult.flight f),
                  nextFlight := f + 1,
                  flights :=
                    s.flights ++ [(f, ⟨FlightKind.rep repId, FlightState.pending⟩)] },
         PResult.flight f)

/-- The backend call of flight `f` settles with outcome `out`; runs the
continuation behind the corresponding `await`.  Overview success stores
the result in `statistics.overview`, clears `loading` and
`overviewPromise`; overview failure clears `loading` and
`overviewPromise` and rethrows.  Rep success stores the result under the
coerced property key in `statistics.reps` and deletes the `repPromises`
entry; rep failure deletes the entry and rethrows. -/
def settle (f : Nat) (out : Except Nat Nat) (s : State) : State :=
  match alookup natEq s.flights f with
  | none => s
  | some fl =>
    match fl.st with
    | FlightState.done _ => s
    | FlightState.pending =>
      let s1 : State :=
        { s with flights := ainsert natEq s.flights f ⟨fl.kind, FlightState.done out⟩ }
      match fl.kind, out with
      | FlightKind.overview, Except.ok v =>
          { s1 with overview := some v, loading := false, overviewPromise := none }
      | FlightKind.overview, Except.error _ =>
          { s1 with loading := false, overviewPromise := none }
      | FlightKind.rep rid, Except.ok v =>
          { s1 with reps := ainsert strEq s1.reps (propertyKey rid) v,
                    repPromises := aremove sameValueZero s1.repPromises rid }
      | FlightKind.rep rid, Except.error _ =>
          { s1 with repPromises := aremove sameValueZero s1.repPromises rid }

/-- The function `invalidateCache()` of the statistics service: nulls
`statistics.overview`, replaces `statistics.reps` with a fresh empty
object, nulls `overviewPromise` and clears `repPromises`.  It touches
nothing else (in particular not the `memoize` caches, not
`statistics.loading`, and no backend call is made). -/
def invalidateCache (s : State) : State :=
  { s with overview := none, reps := [], overviewPromise := none,
           repPromises := [] }

/-- What a returned promise has settled to in state `s`, if settled. -/
def resolve (s : State) : PResult → Option (Except Nat Nat)
  | PResult.value v => some (Except.ok v)
  | PResult.flight f =>
    match alookup natEq s.flights f with
    | some fl =>
      match fl.st with
      | FlightState.done out => some out
      | FlightState.pending => none
    | none => none

end Stats

namespace Home

/-- Which continuation a home-service flight runs when it settles: the
home-summary fetch (capturing the `Date.now()` read at call time, later
stored into `lastFetch`), or one of the personal-todo mutations. -/
inductive Kind where
  | summary : Nat → Kind
  | createTodo : Kind
  | toggleTodo : Kind
  | deleteTodo : Kind
deriving DecidableEq, Repr

/-- One backend flight of the home service. -/
structure Flight where
  kind : Kind
  st : FlightState
deriving DecidableEq, Repr

/-- Whole state of `homeService.start`: the reactive `state` object
(`homeData`, `salesData`, `calendarData`, `lastFetch`, `loading`) and the
flight table (`nextFlight` = number of backend invocations so far;
`CACHE_DURATION` is the constant 60000). -/
structure State where
  homeData : Option Nat
  salesData : Option Nat
  calendarData : Option Nat
  lastFetch : Option Nat
  loading : Bool
  nextFlight : Nat
  flights : List (Nat × Flight)
deriving DecidableEq, Repr

/-- Service state right after `start`. -/
def init : State :=
  { homeData := none, salesData := none, calendarData := none,
    lastFetch := none, loading := false, nextFlight := 0, flights := [] }

/-- The constant `CACHE_DURATION = 60000` (one minute). -/
def cacheDuration : Nat := 60000

/-- Begin the fetch branch of `getHomeSummary`: set `state.loading` and
start the `orm.call("ptt.home.data", "get_home_summary", [])` flight. -/
def startSummary (now : Nat) (s : State) : State × PResult :=
  let f := s.nextFlight
  ({ s with loading := true,
            nextFlight := f + 1,
            flights := s.flights ++ [(f, ⟨Kind.summary now, FlightState.pending⟩)] },
   PResult.flight f)

/-- The function `getHomeSummary(forceRefresh)` called when `Date.now()` reads `now`.
The guard is `!forceRefresh && state.homeData && state.lastFetch &&
(now - state.lastFetch < CACHE_DURATION)`; `state.homeData` holds an
object when non-null (truthy), while `state.lastFetch` is a number, so a
stored epoch of 0 is falsy; JavaScript subtraction may be negative, in
which case the comparison is true, matching truncated Nat subtraction. -/
def getHomeSummary (forceRefresh : Bool) (now : Nat) (s : State) :
    State × PResult :=
  match s.homeData, s.lastFetch with
  | some d, some t =>
    if !forceRefresh && (!(t == 0)) && (now - t < cacheDuration) then
      (s, PResult.value d)
    else
      startSummary now s
  | _, _ => startSummary now s

/-- The function `createPersonalTodo(name, dueDate, priority)`: starts the
`orm.create("ptt.personal.todo", [vals])` flight.  The `vals` payload
(name, optional due date, priority) does not influence the cache. -/
def createPersonalTodo (name : String) (dueDate : Option String)
    (priority : String) (s : State) : State × PResult :=
  let _ := (name, dueDate, priority)
  let f := s.nextFlight
  ({ s with nextFlight := f + 1,
            flights := s.flights ++ [(f, ⟨Kind.createTodo, FlightState.pending⟩)] },
   PResult.flight f)

/-- The function `togglePersonalTodo(id)`: starts the `action_toggle_done` flight. -/
def togglePersonalTodo (id : Nat) (s : State) : State × PResult :=
  let _ := id
  let f := s.nextFlight
  ({ s with nextFlight := f + 1,
            flights := s.flights ++ [(f, ⟨Kind.toggleTodo, FlightState.pending⟩)] },
   PResult.flight f)

/-- The function `deletePersonalTodo(id)`: starts the `orm.unlink` flight. -/
def deletePersonalTodo (id : Nat) (s : State) : State × PResult :=
  let _ := id
  let f := s.nextFlight
  ({ s with nextFlight := f + 1,
            flights := s.flights ++ [(f, ⟨Kind.deleteTodo, FlightState.pending⟩)] },
   PResult.flight f)

/-- The function `invalidateCache()` of the home service: nulls `homeData`,
`salesData`, `calendarData` and `lastFetch`; touches nothing else and
makes no backend call. -/
def invalidateCache (s : State) : State :=
  { s with homeData := none, salesData := none, calendarData := none,
           lastFetch := none }

/-- The backend call of flight `f` settles with outcome `out`.  Summary
success stores the payload and the call-time `now` into
`homeData`/`lastFetch`; the `finally` clause clears `loading` on success
and failure alike.  A mutation that succeeds runs
`this.invalidateCache()` before its promise resolves; a mutation that
fails rejects before reaching `invalidateCache`. -/
def settle (f : Nat) (out : Except Nat Nat) (s : State) : State :=
  match alookup natEq s.flights f with
  | none => s
  | some fl =>
    match fl.st with
    | FlightState.done _ => s
    | FlightState.pending =>
      let s1 : State :=
        { s with flights := ainsert natEq s.flights f ⟨fl.kind, FlightState.done out⟩ }
      match fl.kind, out with
      | Kind.summary now, Except.ok d =>
          { s1 with homeData := some d, lastFetch := some now, loading := false }
      | Kind.summary _, Except.error _ => { s1 with loading := false }
      | Kind.createTodo, Except.ok _ => invalidateCache s1
      | Kind.toggleTodo, Except.ok _ => invalidateCache s1
      | Kind.deleteTodo, Except.ok _ => invalidateCache s1
      | _, Except.error _ => s1

/-- What a returned promise has settled to in state `s`, if settled. -/
def resolve (s : State) : PResult → Option (Except Nat Nat)
  | PResult.value v => some (Except.ok v)
  | PResult.flight f =>
    match alookup natEq s.flights f with
    | some fl =>
      match fl.st with
      | FlightState.done out => some out
      | FlightState.pending => none
    | none => none

end Home

/-- Issue `n` successive calls of the same get operation, collecting the
returned promises; models `n` callers arriving with no settle step in
between (single-threaded interleaving at the awaits). -/
def iterateCalls {σ : Type} (call : σ → σ × PResult) : Nat → σ → σ × List PResult
  | 0, s => (s, [])
  | n + 1, s =>
    let r := call s
    let rest := iterateCalls call n r.1
    (rest.1, r.2 :: rest.2)

/-! ## Helper lemmas on association lists and single steps -/

theorem alookup_aremove_self {κ α : Type} (eq : κ → κ → Bool)
    (l : List (κ × α)) (k : κ) : alookup eq (aremove eq l k) k = none := by
  induction l with
  | nil => rfl
  | cons p t ih =>
    by_cases h : eq p.1 k = true
    · simpa [aremove, List.filter, h] using ih
    · simp only [Bool.not_eq_true] at h
      simpa [aremove, alookup, List.filter, h] using ih

theorem alookup_ainsert_self {κ α : Type} (eq : κ → κ → Bool)
    (l : List (κ × α)) (k : κ) (v : α) (hk : eq k k = true) :
    alookup eq (ainsert eq l k v) k = some v := by
  induction l with
  | nil => simp [ainsert, aremove, alookup, hk]
  | cons p t ih =>
    by_cases h : eq p.1 k = true
    · simpa [ainsert, aremove, List.filter, h] using ih
    · simp only [Bool.not_eq_true] at h
      simpa [ainsert, aremove, alookup, List.filter, h] using ih

theorem alookup_ainsert_ne {κ α : Type} (eq : κ → κ → Bool)
    (l : List (κ × α)) (k k0 : κ) (v : α) (hk : eq k k0 = false) :
    alookup eq (ainsert eq l k v) k0 = alookup eq (aremove eq l k) k0 := by
  induction l with
  | nil => simp [ainsert, aremove, alookup, hk]
  | cons p t ih =>
    by_cases h : eq p.1 k = true
    · simpa [ainsert, aremove, List.filter, h] using ih
    · simp only [Bool.not_eq_true] at h
      by_cases h0 : eq p.1 k0 = true
      · simp [ainsert, aremove, alookup, List.filter, h, h0]
      · simp only [Bool.not_eq_true] at h0
        simpa [ainsert, aremove, alookup, List.filter, h, h0] using ih

theorem alookup_append_of_none {κ α : Type} (eq : κ → κ → Bool)
    (l1 l2 : List (κ × α)) (k : κ) (h : alookup eq l1 k = none) :
    alookup eq (l1 ++ l2) k = alookup eq l2 k := by
  induction l1 with
  | nil => rfl
  | cons p t ih =>
    by_cases hp : eq p.1 k = true
    · simp [alookup, hp] at h
    · simp only [Bool.not_eq_true] at hp
      simp only [alookup, hp] at h
      simpa [alookup, hp] using ih h

theorem sameValueZero_refl (k : JsVal) : sameValueZero k k = true := by
  cases k <;> simp [sameValueZero]

theorem natEq_refl (n : Nat) : natEq n n = true := by simp [natEq]

theorem Stats.loadStatistics_memo (s : Stats.State) (p : PResult)
    (h : s.memoStats = some p) : Stats.loadStatistics s = (s, p) := by
  simp [Stats.loadStatistics, Stats.memoStatsHit, h]

theorem Stats.iterate_loadStatistics_memo (s : Stats.State) (p : PResult)
    (n : Nat) (h : s.memoStats = some p) :
    iterateCalls Stats.loadStatistics n s = (s, List.replicate n p) := by
  induction n with
  | zero => rfl
  | succ m ih =>
    simp [iterateCalls, Stats.loadStatistics_memo s p h, ih, List.replicate]

theorem Stats.loadStatistics_start (s : Stats.State)
    (h1 : s.memoStats = none) (h2 : s.overview = none)
    (h3 : s.overviewPromise = none) :
    Stats.loadStatistics s =
      ({ s with loading := true,
                overviewPromise := some s.nextFlight,
                memoStats := some (PResult.flight s.nextFlight),
                nextFlight := s.nextFlight + 1,
                flights := s.flights ++
                  [(s.nextFlight, ⟨Stats.FlightKind.overview, FlightState.pending⟩)] },
       PResult.flight s.nextFlight) := by
  simp [Stats.loadStatistics, Stats.memoStatsHit, h1, h2, h3]

theorem Stats.loadRepStatistics_memo (k : JsVal) (s : Stats.State) (p : PResult)
    (h : alookup sameValueZero s.memoReps k = some p) :
    Stats.loadRepStatistics k s = (s, p) := by
  simp [Stats.loadRepStatistics, h]

theorem Stats.iterate_loadRepStatistics_memo (k : JsVal) (s : Stats.State)
    (p : PResult) (n : Nat) (h : alookup sameValueZero s.memoReps k = some p) :
    iterateCalls (Stats.loadRepStatistics k) n s = (s, List.replicate n p) := by
  induction n with
  | zero => rfl
  | succ m ih =>
    simp [iterateCalls, Stats.loadRepStatistics_memo k s p h, ih, List.replicate]

theorem Stats.loadRepStatistics_start (k : JsVal) (s : Stats.State)
    (h1 : alookup sameValueZero s.memoReps k = none)
    (h2 : alookup strEq s.reps (propertyKey k) = none)
    (h3 : alookup sameValueZero s.repPromises k = none) :
    Stats.loadRepStatistics k s =
      ({ s with repPromises := ainsert sameValueZero s.repPromises k s.nextFlight,
                memoReps := ainsert sameValueZero s.memoReps k
                  (PResult.flight s.nextFlight),
                nextFlight := s.nextFlight + 1,
                flights := s.flights ++
                  [(s.nextFlight, ⟨Stats.FlightKind.rep k, FlightState.pending⟩)] },
       PResult.flight s.nextFlight) := by
  simp [Stats.loadRepStatistics, h1, h2, h3]

theorem Home.getHomeSummary_miss (force : Bool) (now : Nat) (s : Home.State)
    (h : s.homeData = none) :
    Home.getHomeSummary force now s = Home.startSummary now s := by
  cases hl : s.lastFetch <;> simp [Home.getHomeSummary, h, hl]

theorem Home.iterate_getHomeSummary_miss (now : Nat) (n : Nat) (s : Home.State)
    (h : s.homeData = none) :
    (iterateCalls (Home.getHomeSummary false now) n s).1.nextFlight =
      s.nextFlight + n := by
  induction n generalizing s with
  | zero => simp [iterateCalls]
  | succ m ih =>
    have hstep := Home.getHomeSummary_miss false now s h
    have hmiss : (Home.startSummary now s).1.homeData = none := by
      simp [Home.startSummary, h]
    simp only [iterateCalls, hstep]
    rw [ih _ hmiss]
    simp [Home.startSummary]
    omega

/-! ## Claim theorems -/

/-- C1 (amended): request coalescing holds for the statistics service —
for the overview key and for any `loadRepStatistics` key, issuing `M + 1`
calls while no memo entry, no ready value and no pending handle exist for
that key performs exactly one Fetcher invocation in total, and all calls
receive the same promise (hence the same value or the same error) — but
it fails for `getHomeSummary`, which stores no pending handle and starts
one Fetcher invocation per call arriving while its fetch is unsettled. -/
theorem c1_coalescing_amended :
    (∀ (s : Stats.State) (M : Nat),
        s.memoStats = none → s.overview = none → s.overviewPromise = none →
        (iterateCalls Stats.loadStatistics (M + 1) s).1.nextFlight =
          s.nextFlight + 1 ∧
        (iterateCalls Stats.loadStatistics (M + 1) s).2 =
          List.replicate (M + 1) (PResult.flight s.nextFlight)) ∧
    (∀ (k : JsVal) (s : Stats.State) (M : Nat),
        alookup sameValueZero s.memoReps k = none →
        alookup strEq s.reps (propertyKey k) = none →
        alookup sameValueZero s.repPromises k = none →
        (iterateCalls (Stats.loadRepStatistics k) (M + 1) s).1.nextFlight =
          s.nextFlight + 1 ∧
        (iterateCalls (Stats.loadRepStatistics k) (M + 1) s).2 =
          List.replicate (M + 1) (PResult.flight s.nextFlight)) ∧
    (∀ (s : Home.State) (now M : Nat), s.homeData = none →
        (iterateCalls (Home.getHomeSummary false now) M s).1.nextFlight =
          s.nextFlight + M) := by
  refine ⟨?_, ?_, ?_⟩
  · intro s M h1 h2 h3
    have hstart := Stats.loadStatistics_start s h1 h2 h3
    have hmemo : (Stats.loadStatistics s).1.memoStats =
        some (PResult.flight s.nextFlight) := by rw [hstart]
    have hit := Stats.iterate_loadStatistics_memo (Stats.loadStatistics s).1
      (PResult.flight s.nextFlight) M hmemo
    have hnf : (Stats.loadStatistics s).1.nextFlight = s.nextFlight + 1 := by
      rw [hstart]
    have hres : (Stats.loadStatistics s).2 = PResult.flight s.nextFlight := by
      rw [hstart]
    simp only [iterateCalls, hit, hnf, hres, List.replicate]
    exact ⟨trivial, trivial⟩
  · intro k s M h1 h2 h3
    have hstart := Stats.loadRepStatistics_start k s h1 h2 h3
    have hmemo : alookup sameValueZero (Stats.loadRepStatistics k s).1.memoReps k =
        some (PResult.flight s.nextFlight) := by
      rw [hstart]
      exact alookup_ainsert_self sameValueZero s.memoReps k _ (sameValueZero_refl k)
    have hit := Stats.iterate_loadRepStatistics_memo k
      (Stats.loadRepStatistics k s).1 (PResult.flight s.nextFlight) M hmemo
    have hnf : (Stats.loadRepStatistics k s).1.nextFlight = s.nextFlight + 1 := by
      rw [hstart]
    have hres : (Stats.loadRepStatistics k s).2 = PResult.flight s.nextFlight := by
      rw [hstart]
    simp only [iterateCalls, hit, hnf, hres, List.replicate]
    exact ⟨trivial, trivial⟩
  · intro s now M h
    exact Home.iterate_getHomeSummary_miss now M s h

/-- C1 witness: three overview calls from the fresh statistics service
reach the backend once and all receive the promise of flight 0; three
calls for rep 5 likewise; two overlapping home-summary calls each reach
the backend. -/
theorem c1_coalescing_witness :
    (iterateCalls Stats.loadStatistics 3 Stats.init).1.nextFlight = 1 ∧
    (iterateCalls Stats.loadStatistics 3 Stats.init).2 =
      List.replicate 3 (PResult.flight 0) ∧
    (iterateCalls (Stats.loadRepStatistics (JsVal.num 5)) 3 Stats.init).1.nextFlight = 1 ∧
    (iterateCalls (Home.getHomeSummary false 5) 2 Home.init).1.nextFlight = 2 :=
  ⟨(c1_coalescing_amended.1 Stats.init 2 rfl rfl rfl).1,
   (c1_coalescing_amended.1 Stats.init 2 rfl rfl rfl).2,
   (c1_coalescing_amended.2.1 (JsVal.num 5) Stats.init 2 rfl rfl rfl).1,
   c1_coalescing_amended.2.2 Home.init 5 2 rfl⟩

/-- C1 counterexample: two `getHomeSummary` calls issued while the first
fetch is still unsettled and no ready value exists perform two Fetcher
invocations, not exactly one, and receive distinct promises. -/
theorem c1_coalescing_counterexample :
    (iterateCalls (Home.getHomeSummary false 5) 2 Home.init).1.nextFlight = 2 ∧
    ¬ (iterateCalls (Home.getHomeSummary false 5) 2 Home.init).1.nextFlight = 1 ∧
    (iterateCalls (Home.getHomeSummary false 5) 2 Home.init).2 =
      [PResult.flight 0, PResult.flight 1] := by
  exact ⟨by decide, by decide, by decide⟩

/-- C2 (amended): after a successful completion, `loadStatistics` and
`loadRepStatistics` never invoke the Fetcher again for that key — the
memo cache returns the settled promise unchanged, and these services have
no notion of time, so no entry of theirs expires — but `getHomeSummary`
returns its cached value without fetching only while fewer than
`CACHE_DURATION` (60000) ms have elapsed since the last successful
fetch; once that window passes, a call performs a new Fetcher invocation
even without an intervening invalidation. -/
theorem c2_cache_hit_amended :
    (∀ (s : Stats.State) (f v : Nat),
        s.memoStats = some (PResult.flight f) →
        alookup natEq s.flights f =
          some ⟨Stats.FlightKind.overview, FlightState.done (Except.ok v)⟩ →
        Stats.loadStatistics s = (s, PResult.flight f) ∧
        Stats.resolve s (PResult.flight f) = some (Except.ok v)) ∧
    (∀ (k : JsVal) (s : Stats.State) (p : PResult),
        alookup sameValueZero s.memoReps k = some p →
        Stats.loadRepStatistics k s = (s, p)) ∧
    (∀ (s : Home.State) (d t now : Nat),
        s.homeData = some d → s.lastFetch = some t → t ≠ 0 →
        now - t < Home.cacheDuration →
        Home.getHomeSummary false now s = (s, PResult.value d)) ∧
    (∀ (s : Home.State) (d t now : Nat),
        s.homeData = some d → s.lastFetch = some t →
        Home.cacheDuration ≤ now - t →
        (Home.getHomeSummary false now s).1.nextFlight = s.nextFlight + 1) := by
  refine ⟨?_, ?_, ?_, ?_⟩
  · intro s f v hm hf
    refine ⟨Stats.loadStatistics_memo s _ hm, ?_⟩
    simp [Stats.resolve, hf]
  · intro k s p hm
    exact Stats.loadRepStatistics_memo k s p hm
  · intro s d t now hd ht ht0 hlt
    simp [Home.getHomeSummary, hd, ht, ht0, hlt]
  · intro s d t now hd ht hge
    have hnot : ¬ (now - t < Home.cacheDuration) := not_lt.mpr hge
    simp [Home.getHomeSummary, hd, ht, hnot, Home.startSummary]

/-- C2 witness: with the overview promise settled successfully, a repeat
`loadStatistics` returns it with no new flight; a rep repeat likewise;
`getHomeSummary` at 2000 ms after a fetch at 1000 ms returns the cached
payload, while at 61000 ms it starts a second flight. -/
theorem c2_cache_hit_witness :
    Stats.loadStatistics
        (Stats.settle 0 (Except.ok 7) (Stats.loadStatistics Stats.init).1) =
      ((Stats.settle 0 (Except.ok 7) (Stats.loadStatistics Stats.init).1),
       PResult.flight 0) ∧
    Stats.resolve (Stats.settle 0 (Except.ok 7) (Stats.loadStatistics Stats.init).1)
        (PResult.flight 0) = some (Except.ok 7) ∧
    Stats.loadRepStatistics (JsVal.num 5)
        (Stats.settle 0 (Except.ok 42)
          (Stats.loadRepStatistics (JsVal.num 5) Stats.init).1) =
      ((Stats.settle 0 (Except.ok 42)
          (Stats.loadRepStatistics (JsVal.num 5) Stats.init).1),
       PResult.flight 0) ∧
    Home.getHomeSummary false 2000
        (Home.settle 0 (Except.ok 7) (Home.getHomeSummary false 1000 Home.init).1) =
      ((Home.settle 0 (Except.ok 7) (Home.getHomeSummary false 1000 Home.init).1),
       PResult.value 7) ∧
    (Home.getHomeSummary false 61000
        (Home.settle 0 (Except.ok 7)
          (Home.getHomeSummary false 1000 Home.init).1)).1.nextFlight = 2 :=
  ⟨(c2_cache_hit_amended.1 _ 0 7 (by decide) (by decide)).1,
   (c2_cache_hit_amended.1 _ 0 7 (by decide) (by decide)).2,
   c2_cache_hit_amended.2.1 (JsVal.num 5) _ (PResult.flight 0) (by decide),
   c2_cache_hit_amended.2.2.1 _ 7 1000 2000 (by decide) (by decide)
     (by decide) (by decide),
   c2_cache_hit_amended.2.2.2 _ 7 1000 61000 (by decide) (by decide) (by decide)⟩

/-- C2 counterexample: a `getHomeSummary` that succeeded at 1000 ms is
followed, with no intervening invalidation, by a call at 61000 ms; the
second call performs a second Fetcher invocation instead of returning
the cached value with zero invocations — the home entry expires with
time, refuting the claim at this input. -/
theorem c2_cache_hit_counterexample :
    (Home.settle 0 (Except.ok 7)
      (Home.getHomeSummary false 1000 Home.init).1).homeData = some 7 ∧
    (Home.getHomeSummary false 61000
      (Home.settle 0 (Except.ok 7)
        (Home.getHomeSummary false 1000 Home.init).1)).1.nextFlight = 2 ∧
    (Home.getHomeSummary false 61000
      (Home.settle 0 (Except.ok 7)
        (Home.getHomeSummary false 1000 Home.init).1)).2 = PResult.flight 1 := by
  exact ⟨by decide, by decide, by decide⟩

/-- C3: evaluation at the failing input.  The first `loadStatistics`
rejects (flight 0 settles with error 9); the `memoize` wrapper has
already cached that first promise, so a second call, made after the
first settled and with no invalidation in between, returns the very same
rejected promise and performs no new Fetcher invocation — contradicting
the error-retry claim, the inner error-path cleanup
(`overviewPromise = null` before the rethrow) and the retry intent of
the service.  The per-rep loader behaves the same for rep 5. -/
theorem c3_error_retry_bug :
    (Stats.loadStatistics
      (Stats.settle 0 (Except.error 9) (Stats.loadStatistics Stats.init).1)).2 =
      PResult.flight 0 ∧
    (Stats.loadStatistics
      (Stats.settle 0 (Except.error 9) (Stats.loadStatistics Stats.init).1)).1.nextFlight = 1 ∧
    Stats.resolve
      (Stats.settle 0 (Except.error 9) (Stats.loadStatistics Stats.init).1)
      (PResult.flight 0) = some (Except.error 9) ∧
    (Stats.loadRepStatistics (JsVal.num 5)
      (Stats.settle 0 (Except.error 9)
        (Stats.loadRepStatistics (JsVal.num 5) Stats.init).1)).2 = PResult.flight 0 ∧
    (Stats.loadRepStatistics (JsVal.num 5)
      (Stats.settle 0 (Except.error 9)
        (Stats.loadRepStatistics (JsVal.num 5) Stats.init).1)).1.nextFlight = 1 := by
  exact ⟨by decide, by decide, by decide, by decide, by decide⟩

/-- C4: evaluation at the failing input.  After a successful
`loadStatistics` (flight 0 resolves 7) followed by `invalidateCache()`,
the next `loadStatistics` returns the promise cached by the `memoize`
wrapper — which `invalidateCache` cannot clear — so zero new Fetcher
invocations occur and the stale value 7 is served, contradicting the
fresh-fetch claim and the stated purpose of `invalidateCache`
("useful for refreshing data"); the per-rep loader fails the same way,
while the home service does refetch after its own `invalidateCache`. -/
theorem c4_invalidation_bug :
    (Stats.loadStatistics
      (Stats.invalidateCache
        (Stats.settle 0 (Except.ok 7) (Stats.loadStatistics Stats.init).1))).2 =
      PResult.flight 0 ∧
    (Stats.loadStatistics
      (Stats.invalidateCache
        (Stats.settle 0 (Except.ok 7) (Stats.loadStatistics Stats.init).1))).1.nextFlight = 1 ∧
    Stats.resolve
      (Stats.invalidateCache
        (Stats.settle 0 (Except.ok 7) (Stats.loadStatistics Stats.init).1))
      (PResult.flight 0) = some (Except.ok 7) ∧
    (Stats.loadRepStatistics (JsVal.num 5)
      (Stats.invalidateCache
        (Stats.settle 0 (Except.ok 42)
          (Stats.loadRepStatistics (JsVal.num 5) Stats.init).1))).1.nextFlight = 1 ∧
    (Home.getHomeSummary false 2000
      (Home.invalidateCache
        (Home.settle 0 (Except.ok 7)
          (Home.getHomeSummary false 1000 Home.init).1))).1.nextFlight = 2 := by
  exact ⟨by decide, by decide, by decide, by decide, by decide⟩

/-- C5: full reset.  For every prior state, a single argumentless
`invalidateCache()` clears every cached entry of its own cache: the
statistics service sets `overview` to null, `reps` to a fresh empty
object, `overviewPromise` to null and empties `repPromises`; the home
service sets `homeData`, `salesData`, `calendarData` and `lastFetch`
all to null. -/
theorem c5_full_reset :
    (∀ s : Stats.State,
        (Stats.invalidateCache s).overview = none ∧
        (Stats.invalidateCache s).reps = [] ∧
        (Stats.invalidateCache s).overviewPromise = none ∧
        (Stats.invalidateCache s).repPromises = []) ∧
    (∀ s : Home.State,
        (Home.invalidateCache s).homeData = none ∧
        (Home.invalidateCache s).salesData = none ∧
        (Home.invalidateCache s).calendarData = none ∧
        (Home.invalidateCache s).lastFetch = none) :=
  ⟨fun _ => ⟨rfl, rfl, rfl, rfl⟩, fun _ => ⟨rfl, rfl, rfl, rfl⟩⟩

/-- C6: error propagation with no silent swallowing and no partial
state.  Whenever a pending backend flight rejects, the promise every
caller received for it rejects with that same error; the successful-value
slot for the key (`statistics.overview`, `statistics.reps`,
`state.homeData` with `lastFetch`) keeps its previous contents; no
pending-promise handle remains stored for the key (`overviewPromise`
nulled, the `repPromises` entry deleted); and no new Fetcher invocation
occurs. -/
theorem c6_error_propagation :
    (∀ (s : Stats.State) (f e : Nat),
        alookup natEq s.flights f =
          some ⟨Stats.FlightKind.overview, FlightState.pending⟩ →
        (Stats.settle f (Except.error e) s).overview = s.overview ∧
        (Stats.settle f (Except.error e) s).reps = s.reps ∧
        (Stats.settle f (Except.error e) s).overviewPromise = none ∧
        (Stats.settle f (Except.error e) s).nextFlight = s.nextFlight ∧
        Stats.resolve (Stats.settle f (Except.error e) s) (PResult.flight f) =
          some (Except.error e)) ∧
    (∀ (s : Stats.State) (f e : Nat) (k : JsVal),
        alookup natEq s.flights f =
          some ⟨Stats.FlightKind.rep k, FlightState.pending⟩ →
        (Stats.settle f (Except.error e) s).overview = s.overview ∧
        (Stats.settle f (Except.error e) s).reps = s.reps ∧
        alookup sameValueZero (Stats.settle f (Except.error e) s).repPromises k =
          none ∧
        (Stats.settle f (Except.error e) s).nextFlight = s.nextFlight ∧
        Stats.resolve (Stats.settle f (Except.error e) s) (PResult.flight f) =
          some (Except.error e)) ∧
    (∀ (s : Home.State) (f e now : Nat),
        alookup natEq s.flights f =
          some ⟨Home.Kind.summary now, FlightState.pending⟩ →
        (Home.settle f (Except.error e) s).homeData = s.homeData ∧
        (Home.settle f (Except.error e) s).salesData = s.salesData ∧
        (Home.settle f (Except.error e) s).calendarData = s.calendarData ∧
        (Home.settle f (Except.error e) s).lastFetch = s.lastFetch ∧
        (Home.settle f (Except.error e) s).loading = false ∧
        (Home.settle f (Except.error e) s).nextFlight = s.nextFlight ∧
        Home.resolve (Home.settle f (Except.error e) s) (PResult.flight f) =
          some (Except.error e)) := by
  refine ⟨?_, ?_, ?_⟩
  · intro s f e h
    simp only [Stats.settle, h]
    simp [Stats.resolve,
      alookup_ainsert_self natEq s.flights f _ (natEq_refl f)]
  · intro s f e k h
    simp only [Stats.settle, h]
    simp [Stats.resolve,
      alookup_ainsert_self natEq s.flights f _ (natEq_refl f),
      alookup_aremove_self sameValueZero s.repPromises k]
  · intro s f e now h
    simp only [Home.settle, h]
    simp [Home.resolve,
      alookup_ainsert_self natEq s.flights f _ (natEq_refl f)]

/-- C6 witness: rejecting the pending overview flight, a pending rep-5
flight and a pending home-summary flight with error 9 leaves the value
slots untouched, clears the handles and rejects the returned promises
with error 9. -/
theorem c6_error_propagation_witness :
    ((Stats.settle 0 (Except.error 9)
        (Stats.loadStatistics Stats.init).1).overview = none ∧
      (Stats.settle 0 (Except.error 9)
        (Stats.loadStatistics Stats.init).1).overviewPromise = none ∧
      Stats.resolve
        (Stats.settle 0 (Except.error 9) (Stats.loadStatistics Stats.init).1)
        (PResult.flight 0) = some (Except.error 9)) ∧
    (alookup sameValueZero
        (Stats.settle 0 (Except.error 9)
          (Stats.loadRepStatistics (JsVal.num 5) Stats.init).1).repPromises
        (JsVal.num 5) = none) ∧
    ((Home.settle 0 (Except.error 9)
        (Home.getHomeSummary false 1000 Home.init).1).homeData = none ∧
      Home.resolve
        (Home.settle 0 (Except.error 9)
          (Home.getHomeSummary false 1000 Home.init).1)
        (PResult.flight 0) = some (Except.error 9)) :=
  ⟨⟨(c6_error_propagation.1 (Stats.loadStatistics Stats.init).1 0 9 (by decide)).1,
    (c6_error_propagation.1 (Stats.loadStatistics Stats.init).1 0 9 (by decide)).2.2.1,
    (c6_error_propagation.1 (Stats.loadStatistics Stats.init).1 0 9 (by decide)).2.2.2.2⟩,
   (c6_error_propagation.2.1
      (Stats.loadRepStatistics (JsVal.num 5) Stats.init).1 0 9 (JsVal.num 5)
      (by decide)).2.2.1,
   ⟨(c6_error_propagation.2.2
      (Home.getHomeSummary false 1000 Home.init).1 0 9 1000 (by decide)).1,
    (c6_error_propagation.2.2
      (Home.getHomeSummary false 1000 Home.init).1 0 9 1000 (by decide)).2.2.2.2.2.2⟩⟩

/-- C7: cache-key derivation is order-independent, pure and total.  The
get operations take no structured filter object apart from the
`loadRepStatistics` key; for that key, property-key coercion (the only
key derivation applied to the `statistics.reps` entry store) sends any
two filter objects whose name/value pairs are permutations of each other
to the same property key, hence to the same cache entry; consequently a
second call with such a reordered filter object — necessarily a fresh
reference, so it misses the `memoize` map — finds the stored value and
performs zero Fetcher invocations once the first call has resolved.
Derivation is a total function (`propertyKey` plus SameValueZero map
lookup), so it never throws. -/
theorem c7_key_normalization :
    (∀ (i j : Nat) (fs gs : List (String × Option String)), fs.Perm gs →
        propertyKey (JsVal.obj i fs) = propertyKey (JsVal.obj j gs)) ∧
    (∀ (s : Stats.State) (j : Nat) (gs : List (String × Option String)) (v : Nat),
        alookup sameValueZero s.memoReps (JsVal.obj j gs) = none →
        alookup strEq s.reps (propertyKey (JsVal.obj j gs)) = some v →
        (Stats.loadRepStatistics (JsVal.obj j gs) s).2 = PResult.value v ∧
        (Stats.loadRepStatistics (JsVal.obj j gs) s).1.nextFlight = s.nextFlight ∧
        (Stats.loadRepStatistics (JsVal.obj j gs) s).1.flights = s.flights) := by
  refine ⟨fun i j fs gs _ => rfl, ?_⟩
  intro s j gs v h1 h2
  simp [Stats.loadRepStatistics, h1, h2]

/-- C7 witness: the filter object `\x7bstart_date: "2024-01-01",
end_date: null\x7d` (reference 1) is fetched and resolves with 42; the
reordered filter object `\x7bend_date: null, start_date: "2024-01-01"\x7d`
(fresh reference 2) then hits the same cache entry and returns 42 with
zero further Fetcher invocations. -/
theorem c7_key_normalization_witness :
    propertyKey (JsVal.obj 1 [("start_date", some "2024-01-01"), ("end_date", none)]) =
      propertyKey (JsVal.obj 2 [("end_date", none), ("start_date", some "2024-01-01")]) ∧
    (Stats.loadRepStatistics
        (JsVal.obj 2 [("end_date", none), ("start_date", some "2024-01-01")])
        (Stats.settle 0 (Except.ok 42)
          (Stats.loadRepStatistics
            (JsVal.obj 1 [("start_date", some "2024-01-01"), ("end_date", none)])
            Stats.init).1)).2 = PResult.value 42 ∧
    (Stats.loadRepStatistics
        (JsVal.obj 2 [("end_date", none), ("start_date", some "2024-01-01")])
        (Stats.settle 0 (Except.ok 42)
          (Stats.loadRepStatistics
            (JsVal.obj 1 [("start_date", some "2024-01-01"), ("end_date", none)])
            Stats.init).1)).1.nextFlight = 1 :=
  ⟨c7_key_normalization.1 1 2 _ _ (by decide),
   (c7_key_normalization.2 _ 2 _ 42 (by decide) (by decide)).1,
   (c7_key_normalization.2 _ 2 _ 42 (by decide) (by decide)).2.1⟩

/-- C8: invalidation is synchronous and fetch-free.  Both
`invalidateCache` functions are plain state transformers with no await
and no backend call: they append no flight (`nextFlight` and the flight
table are unchanged, so no Fetcher invocation and no re-fetch is
triggered by them) and touch nothing outside their own cache fields —
`loading` and the memo caches of the statistics service and `loading`
of the home service are left as they were. -/
theorem c8_invalidation_sync :
    (∀ s : Stats.State,
        (Stats.invalidateCache s).nextFlight = s.nextFlight ∧
        (Stats.invalidateCache s).flights = s.flights ∧
        (Stats.invalidateCache s).loading = s.loading ∧
        (Stats.invalidateCache s).memoStats = s.memoStats ∧
        (Stats.invalidateCache s).memoReps = s.memoReps) ∧
    (∀ s : Home.State,
        (Home.invalidateCache s).nextFlight = s.nextFlight ∧
        (Home.invalidateCache s).flights = s.flights ∧
        (Home.invalidateCache s).loading = s.loading) :=
  ⟨fun _ => ⟨rfl, rfl, rfl, rfl, rfl⟩, fun _ => ⟨rfl, rfl, rfl⟩⟩

/-- C9 (amended): the get operations do maintain the handles around each
flight — a `loadStatistics` that starts a fetch stores its flight in
`overviewPromise` and a `loadRepStatistics` that starts a fetch stores
its flight under its key in `repPromises`, and settling such a flight,
whether with success or failure, removes the handle — but the handle is
not present *exactly* while the fetch is in flight in every reachable
state, because `invalidateCache` clears both handles without cancelling
or settling the in-flight fetches. -/
theorem c9_pending_handle_amended :
    (∀ s : Stats.State,
        s.memoStats = none → s.overview = none → s.overviewPromise = none →
        alookup natEq s.flights s.nextFlight = none →
        (Stats.loadStatistics s).1.overviewPromise = some s.nextFlight ∧
        alookup natEq (Stats.loadStatistics s).1.flights s.nextFlight =
          some ⟨Stats.FlightKind.overview, FlightState.pending⟩) ∧
    (∀ (s : Stats.State) (f : Nat) (out : Except Nat Nat),
        alookup natEq s.flights f =
          some ⟨Stats.FlightKind.overview, FlightState.pending⟩ →
        (Stats.settle f out s).overviewPromise = none) ∧
    (∀ (k : JsVal) (s : Stats.State),
        alookup sameValueZero s.memoReps k = none →
        alookup strEq s.reps (propertyKey k) = none →
        alookup sameValueZero s.repPromises k = none →
        alookup natEq s.flights s.nextFlight = none →
        alookup sameValueZero (Stats.loadRepStatistics k s).1.repPromises k =
          some s.nextFlight ∧
        alookup natEq (Stats.loadRepStatistics k s).1.flights s.nextFlight =
          some ⟨Stats.FlightKind.rep k, FlightState.pending⟩) ∧
    (∀ (k : JsVal) (s : Stats.State) (f : Nat) (out : Except Nat Nat),
        alookup natEq s.flights f =
          some ⟨Stats.FlightKind.rep k, FlightState.pending⟩ →
        alookup sameValueZero (Stats.settle f out s).repPromises k = none) := by
  refine ⟨?_, ?_, ?_, ?_⟩
  · intro s h1 h2 h3 hfl
    rw [Stats.loadStatistics_start s h1 h2 h3]
    refine ⟨rfl, ?_⟩
    simp only []
    rw [alookup_append_of_none natEq s.flights _ s.nextFlight hfl]
    simp [alookup, natEq_refl]
  · intro s f out h
    cases out <;> simp [Stats.settle, h]
  · intro k s h1 h2 h3 hfl
    rw [Stats.loadRepStatistics_start k s h1 h2 h3]
    refine ⟨?_, ?_⟩
    · exact alookup_ainsert_self sameValueZero s.repPromises k _
        (sameValueZero_refl k)
    · simp only []
      rw [alookup_append_of_none natEq s.flights _ s.nextFlight hfl]
      simp [alookup, natEq_refl]
  · intro k s f out h
    cases out <;>
      simp [Stats.settle, h, alookup_aremove_self sameValueZero _ k]

/-- C9 witness: from the fresh service, `loadStatistics` stores flight 0
in `overviewPromise` and settling it (success or failure) clears the
handle; `loadRepStatistics(5)` stores flight 0 under key 5 and settling
clears it. -/
theorem c9_pending_handle_witness :
    ((Stats.loadStatistics Stats.init).1.overviewPromise = some 0 ∧
      alookup natEq (Stats.loadStatistics Stats.init).1.flights 0 =
        some ⟨Stats.FlightKind.overview, FlightState.pending⟩) ∧
    (Stats.settle 0 (Except.ok 7)
      (Stats.loadStatistics Stats.init).1).overviewPromise = none ∧
    (Stats.settle 0 (Except.error 9)
      (Stats.loadStatistics Stats.init).1).overviewPromise = none ∧
    alookup sameValueZero
      (Stats.loadRepStatistics (JsVal.num 5) Stats.init).1.repPromises
      (JsVal.num 5) = some 0 ∧
    alookup sameValueZero
      (Stats.settle 0 (Except.ok 42)
        (Stats.loadRepStatistics (JsVal.num 5) Stats.init).1).repPromises
      (JsVal.num 5) = none :=
  ⟨⟨(c9_pending_handle_amended.1 Stats.init rfl rfl rfl rfl).1,
    (c9_pending_handle_amended.1 Stats.init rfl rfl rfl rfl).2⟩,
   c9_pending_handle_amended.2.1 (Stats.loadStatistics Stats.init).1 0
     (Except.ok 7) (by decide),
   c9_pending_handle_amended.2.1 (Stats.loadStatistics Stats.init).1 0
     (Except.error 9) (by decide),
   (c9_pending_handle_amended.2.2.1 (JsVal.num 5) Stats.init rfl rfl rfl rfl).1,
   c9_pending_handle_amended.2.2.2 (JsVal.num 5)
     (Stats.loadRepStatistics (JsVal.num 5) Stats.init).1 0 (Except.ok 42)
     (by decide)⟩

/-- C9 counterexample: calling `invalidateCache` while the overview
fetch of flight 0 is still in flight leaves the fetch pending but
removes `overviewPromise`, so the handle is not present exactly while a
fetch for the key is in flight. -/
theorem c9_pending_handle_counterexample :
    (Stats.invalidateCache (Stats.loadStatistics Stats.init).1).overviewPromise =
      none ∧
    alookup natEq
      (Stats.invalidateCache (Stats.loadStatistics Stats.init).1).flights 0 =
      some ⟨Stats.FlightKind.overview, FlightState.pending⟩ := by
  exact ⟨by decide, by decide⟩

/-- C10: mutations invalidate the cache.  Whenever a pending backend
flight of `createPersonalTodo`, `togglePersonalTodo` or
`deletePersonalTodo` resolves, the continuation runs
`this.invalidateCache()`, so `homeData`, `salesData`, `calendarData` and
`lastFetch` are all null afterwards and the next `getHomeSummary`
(with any `forceRefresh` and at any time) performs a fresh Fetcher
invocation. -/
theorem c10_mutations_invalidate :
    ∀ (s : Home.State) (f v : Nat) (kd : Home.Kind),
      (kd = Home.Kind.createTodo ∨ kd = Home.Kind.toggleTodo ∨
        kd = Home.Kind.deleteTodo) →
      alookup natEq s.flights f = some ⟨kd, FlightState.pending⟩ →
      (Home.settle f (Except.ok v) s).homeData = none ∧
      (Home.settle f (Except.ok v) s).salesData = none ∧
      (Home.settle f (Except.ok v) s).calendarData = none ∧
      (Home.settle f (Except.ok v) s).lastFetch = none ∧
      ∀ (force : Bool) (now : Nat),
        (Home.getHomeSummary force now (Home.settle f (Except.ok v) s)).1.nextFlight =
          (Home.settle f (Except.ok v) s).nextFlight + 1 := by
  intro s f v kd hkd h
  have hset : (Home.settle f (Except.ok v) s).homeData = none ∧
      (Home.settle f (Except.ok v) s).salesData = none ∧
      (Home.settle f (Except.ok v) s).calendarData = none ∧
      (Home.settle f (Except.ok v) s).lastFetch = none := by
    rcases hkd with hk | hk | hk <;> subst hk <;>
      simp [Home.settle, h, Home.invalidateCache]
  refine ⟨hset.1, hset.2.1, hset.2.2.1, hset.2.2.2, ?_⟩
  intro force now
  rw [Home.getHomeSummary_miss force now _ hset.1]
  simp [Home.startSummary]

/-- C10 witness: creating, toggling and deleting a personal todo from
states with the corresponding pending flight each clear all four cached
fields once the backend call succeeds, and the following
`getHomeSummary` starts a new flight. -/
theorem c10_mutations_invalidate_witness :
    ((Home.settle 0 (Except.ok 1)
        (Home.createPersonalTodo "call venue" none "1" Home.init).1).homeData = none ∧
      (Home.getHomeSummary false 99999999
        (Home.settle 0 (Except.ok 1)
          (Home.createPersonalTodo "call venue" none "1" Home.init).1)).1.nextFlight = 2) ∧
    (Home.settle 0 (Except.ok 1)
      (Home.togglePersonalTodo 4 Home.init).1).lastFetch = none ∧
    (Home.settle 0 (Except.ok 1)
      (Home.deletePersonalTodo 4 Home.init).1).salesData = none :=
  ⟨⟨(c10_mutations_invalidate
      (Home.createPersonalTodo "call venue" none "1" Home.init).1 0 1
      Home.Kind.createTodo (Or.inl rfl) (by decide)).1,
    by
      have h := (c10_mutations_invalidate
        (Home.createPersonalTodo "call venue" none "1" Home.init).1 0 1
        Home.Kind.createTodo (Or.inl rfl) (by decide)).2.2.2.2 false 99999999
      simpa using h⟩,
   (c10_mutations_invalidate (Home.togglePersonalTodo 4 Home.init).1 0 1
     Home.Kind.toggleTodo (Or.inr (Or.inl rfl)) (by decide)).2.2.2.1,
   (c10_mutations_invalidate (Home.deletePersonalTodo 4 Home.init).1 0 1
     Home.Kind.deleteTodo (Or.inr (Or.inr rfl)) (by decide)).2.1⟩

end PttCache
